import Mathlib

/-!
Verification development for the conversational navigation engine of the
grade-lookup bot (files `bot/constants.py`, `bot/keyboards.py`,
`bot/handlers.py`).  Python strings are embedded as lists of characters
(`Str`), Python dictionaries holding result rows as a record of optional
fields (`Item`, one field per key the modelled code reads, `none` = absent
key), and the per-user `context.user_data` dictionary as a record of
optional slots (`UserData`).  Telegram message delivery is external I/O and
is modelled by passing the relevant message identifiers as explicit
arguments; a handler that would raise (and be converted by its uniform
`except` block into a terminate-with-error reply) is modelled as returning
`none`.
-/

namespace GradeBot

/-- Python strings, embedded as their list of characters. -/
abbrev Str := List Char

/-- Constant `ITEMS_PER_PAGE` from `bot/constants.py`. -/
def ITEMS_PER_PAGE : Nat := 8

/-- Conversation states, `range(11)` from `bot/constants.py`. -/
def SELECTING_ACTION : Nat := 0

def TYPING_COURSE : Nat := 1

def TYPING_PROF : Nat := 2

def SELECTING_COURSE_RESULTS : Nat := 3

def SELECTING_PROF_RESULTS : Nat := 4

def SELECTING_COURSE_FOR_PROF : Nat := 5

def SELECTING_YEAR_SEMESTER : Nat := 6

def SHOWING_FINAL_GRADES : Nat := 7

/-- Callback-data constants from `bot/constants.py` (the ones the modelled
handlers and keyboards use). -/
def CANCEL : Str := "cancel".data

def BACK_TO_MAIN : Str := "back_main".data

def BACK_TO_TYPING_COURSE : Str := "back_type_crs".data

def BACK_TO_TYPING_PROF : Str := "back_type_prof".data

def BACK_TO_PROF_COURSE_LIST_PREFIX : Str := "back_prof_crs_list_".data

def BACK_TO_COURSE_SEARCH_LIST : Str := "back_crs_srch_list".data

def BACK_TO_PROF_SEARCH_LIST : Str := "back_prof_srch_list".data

def COURSE_SELECT_PREFIX : Str := "cs_".data

def PROF_SELECT_PREFIX : Str := "ps_".data

def YEAR_SEM_SELECT_PREFIX : Str := "ysel_".data

def PAGE_COURSE_SEARCH_RESULTS_PREFIX : Str := "p_csr_".data

def PAGE_PROF_SEARCH_RESULTS_PREFIX : Str := "p_psr_".data

def PAGE_PROF_COURSE_LIST_PREFIX : Str := "p_pcl_".data

def PAGE_YEAR_SEMESTER_PREFIX : Str := "p_ys_".data

/-- An inline keyboard button: `InlineKeyboardButton(text, callback_data=...)`. -/
structure Button where
  text : Str
  callback_data : Str
deriving Repr, DecidableEq

/-- A keyboard: list of button rows, as built by `bot/keyboards.py`. -/
abbrev Keyboard := List (List Button)

/-- One result dictionary as the keyboard builders read it.  Each field is a
key accessed via `.get`; `none` models an absent key.  (Offerings returned
for a professor carry their course data nested under a `course` key, which
the modelled keyboard code never reads; such rows simply have
`course_code = none` here, matching what `dict.get` yields on them.) -/
structure Item where
  code : Option Str := none
  name : Option Str := none
  id : Option Nat := none
  course_code : Option Str := none
  course_name : Option Str := none
  academic_year : Option Str := none
  semester : Option Str := none
deriving Repr, DecidableEq

/-- Python truthiness of an optional string (`None` and `""` are falsy). -/
def truthyStr : Option Str → Bool
  | none => false
  | some s => s ≠ []

/-- Python slice `l[start:stop]` for `0 ≤ start ≤ stop`. -/
def pySlice (l : List α) (start stop : Nat) : List α :=
  (l.drop start).take (stop - start)

/-- Decimal rendering of a natural number (what a Python f-string prints for
a nonnegative int).  Structured on fuel so it evaluates by `decide`;
`fuel > n` suffices. -/
def decDigitsAux : Nat → Nat → Str
  | 0, _ => []
  | fuel + 1, n =>
    if n < 10 then [Nat.digitChar n]
    else decDigitsAux fuel (n / 10) ++ [Nat.digitChar (n % 10)]

/-- Decimal rendering of `n`. -/
def decString (n : Nat) : Str := decDigitsAux (n + 1) n

/-- Python `int(s)` restricted to the canonical digit strings the encoders
emit (producers only ever render nonnegative ints; `int` also accepts
signs and surrounding whitespace, which no producer emits). -/
def parseNat (s : Str) : Option Nat :=
  if s ≠ [] ∧ s.all (fun c => 48 ≤ c.toNat ∧ c.toNat ≤ 57)
  then some (s.foldl (fun n c => n * 10 + (c.toNat - 48)) 0)
  else none

/-- Python `s.split(sep)` for a single-character separator (keeps empty
groups, never returns an empty list). -/
def splitChars (sep : Char) : Str → List Str
  | [] => [[]]
  | c :: cs =>
    match splitChars sep cs with
    | [] => if c = sep then [[], []] else [[c]]
    | g :: gs => if c = sep then [] :: g :: gs else (c :: g) :: gs

/-- Python `sep.join(groups)` for a single-character separator. -/
def joinSep (sep : Char) : List Str → Str
  | [] => []
  | [g] => g
  | g :: gs => g ++ sep :: joinSep sep gs

/-- Python `s.rsplit(sep, 1)` for a single-character separator. -/
def pyRsplitOnce (sep : Char) (s : Str) : List Str :=
  match splitChars sep s with
  | [] => [s]
  | [_] => [s]
  | g :: gs => [joinSep sep ((g :: gs).dropLast), gs.getLastD g]

/-- Python `query.data.split(pfx, 1)[1]` as the callbacks use it: every such
handler is registered under pattern `^pfx`, so the callback data starts
with `pfx` and the split returns the remainder; the `IndexError` branch
(prefix absent) maps to `none`. -/
def stripPfx (pfx s : Str) : Option Str :=
  if pfx.isPrefixOf s then some (s.drop pfx.length) else none

/-- The `payload_str` computed in `_add_pagination_buttons`
(`"_".join(map(str, payload_parts)) + "_" if payload_parts else ""`). -/
def payloadStr : List Str → Str
  | [] => []
  | ps => joinSep '_' ps ++ ['_']

/-- The callback data written on a pagination button: the base prefix,
then the payload string, then the page rendered in decimal. -/
def encodePageCallback (basePfx : Str) (payload_parts : List Str) (page : Nat) : Str :=
  basePfx ++ payloadStr payload_parts ++ decString page

/-- The pagination row `_add_pagination_buttons` would append (empty when it
appends nothing).  Mirrors `bot/keyboards.py` lines 45-67. -/
def paginationRow (current_page total_items : Nat) (basePfx : Str)
    (payload_parts : List Str) : List Button :=
  if total_items ≤ ITEMS_PER_PAGE then []
  else
    let total_pages := (total_items + ITEMS_PER_PAGE - 1) / ITEMS_PER_PAGE
    (if current_page > 0 then
      [Button.mk "⬅️ Previous".data (encodePageCallback basePfx payload_parts (current_page - 1))]
    else []) ++
    (if current_page < total_pages - 1 then
      [Button.mk "Next ➡️".data (encodePageCallback basePfx payload_parts (current_page + 1))]
    else [])

/-- Function `_add_pagination_buttons`: appends the row when it is nonempty. -/
def addPaginationButtons (keyboard : Keyboard) (current_page total_items : Nat)
    (basePfx : Str) (payload_parts : List Str) : Keyboard :=
  let row := paginationRow current_page total_items basePfx payload_parts
  if row.isEmpty then keyboard else keyboard ++ [row]

/-- The button built for a course search result: the id, a dash and the
title, truncated to 60 characters; callback data is the select prefix
followed by the id.  Only used when the identifier is truthy. -/
def courseItemButton (item : Item) : Button :=
  let idStr := item.code.getD []
  let title := item.name.getD idStr
  let text := if title ≠ [] ∧ title ≠ idStr
    then idStr ++ " - ".data ++ title else idStr
  Button.mk (text.take 60) ( COURSE_SELECT_PREFIX ++ idStr)

/-- The button built for a professor search result.  Only used when the
identifier is truthy (`item.get("id")` neither absent nor `0`). -/
def profItemButton (item : Item) : Button :=
  let pid := item.id.getD 0
  let text := item.name.getD ("Prof ID ".data ++ decString pid)
  Button.mk (text.take 60) ( PROF_SELECT_PREFIX ++ decString pid)

/-- Loop body of `create_search_results_keyboard`: the row built for one
item, `none` when the item is skipped (`if item_id:` falsy, i.e. the
course code absent or empty, resp. the professor id absent or `0`). -/
def searchResultRow (search_type : Str) (item : Item) : Option (List Button) :=
  if search_type = "course".data then
    if truthyStr item.code then some [courseItemButton item] else none
  else
    if item.id.getD 0 ≠ 0 then some [profItemButton item] else none

/-- Function `create_search_results_keyboard` (`bot/keyboards.py` lines 73-108). -/
def create_search_results_keyboard (all_results : List Item) (search_type : Str)
    (current_page : Nat) : Keyboard :=
  let start := current_page * ITEMS_PER_PAGE
  let page_items := pySlice all_results start (start + ITEMS_PER_PAGE)
  let itemRows := page_items.filterMap (searchResultRow search_type)
  let pgPfx := if search_type = "course".data
    then PAGE_COURSE_SEARCH_RESULTS_PREFIX else PAGE_PROF_SEARCH_RESULTS_PREFIX
  let kb := addPaginationButtons itemRows current_page all_results.length pgPfx []
  let back_cb := if search_type = "course".data
    then BACK_TO_TYPING_COURSE else BACK_TO_TYPING_PROF
  kb ++ [[Button.mk "⬅️ Re-enter Search".data back_cb, Button.mk "❌ Cancel".data CANCEL]]

/-- Loop body of `create_prof_course_selection_keyboard`: the row for one
course, `none` when skipped (`if not code: continue`). -/
def profCourseRow (prof_id_str : Str) (item : Item) : Option (List Button) :=
  match item.course_code with
  | none => none
  | some code =>
    if code = [] then none
    else
      let text := match item.course_name with
        | some t => if t ≠ [] ∧ t ≠ code then code ++ " - ".data ++ t else code
        | none => code
      some [Button.mk (text.take 60)
        ( COURSE_SELECT_PREFIX ++ code ++ "|prof|".data ++ prof_id_str)]

/-- Function `create_prof_course_selection_keyboard` (`bot/keyboards.py` 110-137). -/
def create_prof_course_selection_keyboard (courses : List Item) (prof_id_str : Str)
    (current_page : Nat) : Keyboard :=
  let start := current_page * ITEMS_PER_PAGE
  let itemRows := (pySlice courses start (start + ITEMS_PER_PAGE)).filterMap
    (profCourseRow prof_id_str)
  let kb := addPaginationButtons itemRows current_page courses.length
    PAGE_PROF_COURSE_LIST_PREFIX [prof_id_str]
  kb ++ [[Button.mk "⬅️ Different Professor".data BACK_TO_PROF_SEARCH_LIST,
          Button.mk "❌ Cancel".data CANCEL]]

/-- Insertion-ordered dictionary build for `unique_terms` in
`create_year_semester_keyboard`: `unique_terms[key] = t` keeps the position
of the first insertion of `key` and overwrites its value. -/
def upsertTerm (acc : List ((Str × Str) × Item)) (k : Str × Str) (t : Item) :
    List ((Str × Str) × Item) :=
  if acc.any (fun p => p.1 = k) then
    acc.map (fun p => if p.1 = k then (p.1, t) else p)
  else acc ++ [(k, t)]

/-- One iteration of the `unique_terms` loop: insert the term under key
`(academic_year, semester)` when both components are truthy (`if all(key)`),
otherwise skip it. -/
def uniqueTermsStep (acc : List ((Str × Str) × Item)) (t : Item) :
    List ((Str × Str) × Item) :=
  match t.academic_year, t.semester with
  | some y, some s => if y ≠ [] ∧ s ≠ [] then upsertTerm acc (y, s) t else acc
  | _, _ => acc

/-- The `unique_terms` dict of `create_year_semester_keyboard` as an
association list. -/
def uniqueTermsAux (terms : List Item) : List ((Str × Str) × Item) :=
  terms.foldl uniqueTermsStep []

/-- The `unique_terms.values()` view in insertion order. -/
def uniqueTerms (terms : List Item) : List Item := (uniqueTermsAux terms).map (·.2)

/-- Python `sem_map.get(x["semester"], 99)` with `sem_map` mapping Odd to 1, Even
to 2 and Summer to 3. -/
def semRank (s : Str) : Nat :=
  if s = "Odd".data then 1
  else if s = "Even".data then 2
  else if s = "Summer".data then 3
  else 99

/-- Python `int(x["academic_year"].split("-")[0])`, `none` when `int` would raise
(non-digit leading field).  A leading dash would make the first field empty,
so only plain digit fields parse, matching `int` on them. -/
def yearStart (y : Str) : Option Nat :=
  parseNat ((splitChars '-' y).headD [])

/-- The sort key: minus the leading year as computed above, paired with the
semester rank; `none` when the key computation would raise. -/
def termKey? (t : Item) : Option (Int × Nat) :=
  match t.academic_year, t.semester with
  | some y, some s =>
    match yearStart y with
    | some v => some (-(v : Int), semRank s)
    | none => none
  | _, _ => none

/-- Total version of the key used inside the comparator, meaningful wherever
`termKey?` is `some`. -/
def termKeyD (t : Item) : Int × Nat := (termKey? t).getD (0, 0)

/-- Lexicographic order on sort keys, i.e. how Python compares the key
tuples. -/
def keyLe (a b : Int × Nat) : Bool := a.1 < b.1 || (a.1 = b.1 && a.2 ≤ b.2)

/-- Strict lexicographic order on sort keys. -/
def keyLt (a b : Int × Nat) : Bool := a.1 < b.1 || (a.1 = b.1 && a.2 < b.2)

/-- Comparison used by `sorted(unique_terms.values(), key=...)`. -/
def termLe (a b : Item) : Prop := keyLe (termKeyD a) (termKeyD b) = true

instance : DecidableRel termLe := fun a b => by
  unfold termLe; infer_instance

/-- The `sorted_terms` list of `create_year_semester_keyboard`: stable sort of the
deduplicated terms by the key above; `none` when some key computation would
raise (caught by the calling handler as an error).  Python `sorted` is a
stable sort, as is `List.insertionSort`, and two stable sorts under the same
total preorder produce the same output. -/
def sortedTermsOpt (terms : List Item) : Option (List Item) :=
  let uniq := uniqueTerms terms
  if uniq.all (fun t => (termKey? t).isSome)
  then some (List.insertionSort termLe uniq)
  else none

/-- The button row rendered for one sorted term: the year and the
parenthesised semester as label, with the pipe-delimited selection payload
as callback data. -/
def yearSemRow (mode back_id : Str) (t : Item) : List Button :=
  let y := t.academic_year.getD []
  let s := t.semester.getD []
  [Button.mk (y ++ " (".data ++ s ++ ")".data)
    ( YEAR_SEM_SELECT_PREFIX ++ y ++ "|".data ++ s ++ "|".data ++ mode ++ "|".data ++ back_id)]

/-- Function `create_year_semester_keyboard` (`bot/keyboards.py` 139-183); `none`
models the exception path when a sort key fails to compute. -/
def create_year_semester_keyboard (terms : List Item) (back_id mode : Str)
    (current_page : Nat) : Option Keyboard :=
  match sortedTermsOpt terms with
  | none => none
  | some sorted_terms =>
    let start := current_page * ITEMS_PER_PAGE
    let itemRows := (pySlice sorted_terms start (start + ITEMS_PER_PAGE)).map
      (yearSemRow mode back_id)
    let kb := addPaginationButtons itemRows current_page sorted_terms.length
      PAGE_YEAR_SEMESTER_PREFIX [mode, back_id]
    let back_cb := if mode = "course".data then BACK_TO_COURSE_SEARCH_LIST
      else BACK_TO_PROF_COURSE_LIST_PREFIX ++ back_id
    some (kb ++ [[Button.mk "⬅️ Back".data back_cb, Button.mk "❌ Cancel".data CANCEL]])

/-!  Gating filters (`bot/handlers.py`: `get_maintenance_status`,
`pre_process_blocked_user`, `global_pre_processor`).  The Redis read and the
block-status API call are external; each is modelled by an argument carrying
either the observed value or a transient failure. -/

/-- Outcome of `redis_client.get("maintenance_mode")`: the stored value
(`none` = key absent) or a connection error. -/
inductive RedisRead where
  | val (mode : Option String)
  | connError
deriving Repr, DecidableEq

/-- Outcome of `get_user_status_api`: a response with (or without) an
`is_blocked` field, a falsy response, or a raised exception. -/
inductive BlockApiResult where
  | status (is_blocked : Bool)
  | noResponse
  | fail
deriving Repr, DecidableEq

/-- Function `get_maintenance_status` (`bot/handlers.py` 96-125). -/
def get_maintenance_status (user_id : Nat) (admin_ids : List Nat)
    (redis : RedisRead) : Option String :=
  if user_id ∈ admin_ids then none
  else
    match redis with
    | .connError => none
    | .val mode =>
      match mode with
      | none => none
      | some m =>
        if m = "false" then none
        else if m = "true" then some "stealth"
        else some m

/-- Function `pre_process_blocked_user` (`bot/handlers.py` 281-317): `true` means the
update is dropped.  `user_id = none` models an update without an effective
user. -/
def pre_process_blocked_user (user_id : Option Nat) (admin_ids : List Nat)
    (api : BlockApiResult) : Bool :=
  match user_id with
  | none => false
  | some uid =>
    if uid ∈ admin_ids then false
    else
      match api with
      | .fail => false
      | .noResponse => false
      | .status b => b

/-- Result of the gating pre-processor. -/
inductive GateResult where
  | allow
  | silentDrop
  | replyAndDrop (msg : String)
deriving Repr, DecidableEq

/-- Function `global_pre_processor` (`bot/handlers.py` 127-151).  `ApplicationHandlerStop`
raised with no reply is `silentDrop`; with the maintenance message replied,
`replyAndDrop`; falling through is `allow`. -/
def global_pre_processor (user_id : Option Nat) (admin_ids : List Nat)
    (redis : RedisRead) (api : BlockApiResult) : GateResult :=
  let afterMaintenance : Option GateResult :=
    match user_id with
    | none => none
    | some uid =>
      match get_maintenance_status uid admin_ids redis with
      | none => none
      | some m =>
        if m = "stealth" then some .silentDrop
        else if m ≠ "" then some (.replyAndDrop m)
        else none
  match afterMaintenance with
  | some r => r
  | none =>
    if pre_process_blocked_user user_id admin_ids api then .silentDrop else .allow

/-!  The per-user context dictionary and the handlers of the modelled
claims. -/

/-- The `context.user_data` dict: one optional field per slot the modelled handlers
touch; `none` models an absent key.  Message objects are represented by
their message ids. -/
structure UserData where
  all_course_search_results : Option (List Item) := none
  current_course_search_page : Option Nat := none
  last_search_query_course : Option Str := none
  all_prof_search_results : Option (List Item) := none
  current_prof_search_page : Option Nat := none
  last_search_query_prof : Option Str := none
  all_prof_course_list_results : Option (List Item) := none
  current_prof_course_list_page : Option Nat := none
  unique_courses_for_selected_prof_kb : Option (List Item) := none
  all_year_semester_list_results : Option (List Item) := none
  current_year_semester_list_page : Option Nat := none
  selected_course : Option Str := none
  selected_prof_id : Option Nat := none
  selected_prof_name : Option Str := none
  selected_year : Option Str := none
  selected_semester : Option Str := none
  search_mode : Option Str := none
  current_ys_list_mode : Option Str := none
  current_ys_list_identifier : Option Str := none
  last_plot_message_id : Option Nat := none
  last_bot_message_obj : Option Nat := none
  final_plot_message_obj : Option Nat := none
  original_message_id_for_edit : Option Nat := none
deriving Repr, DecidableEq

/-- Python `context.user_data.clear()`. -/
def UserData.cleared : UserData := {}

/-- Function `start_command` (`bot/handlers.py` 534-596).  It sends the welcome
message (a new message whose id is `newMsgId`), records that id, and returns
`SELECTING_ACTION`.  The background subscribe task is fire-and-forget
external I/O.  Note: it pops only `original_message_id_for_edit`; it does
not clear the rest of the context. -/
def start_command (ud : UserData) (newMsgId : Nat) : Nat × UserData :=
  let ud1 := { ud with original_message_id_for_edit := none }
  let ud2 := { ud1 with original_message_id_for_edit := some newMsgId }
  (SELECTING_ACTION, ud2)

/-- Function `back_to_main_callback` (`bot/handlers.py` 1193-1243): pops the saved
plot message, clears the whole context, sends a fresh welcome message
(`newMsgId`) and records its id. -/
def back_to_main_callback (ud : UserData) (newMsgId : Nat) : Nat × UserData :=
  let _ud1 := { ud with final_plot_message_obj := none }
  let ud2 := UserData.cleared
  (SELECTING_ACTION, { ud2 with original_message_id_for_edit := some newMsgId })

/-- Function `_clear_list_context` (`bot/handlers.py` 323-340).  (The
`unique_{list_type}_kb` key it also pops is never written by any handler and
has no field here.) -/
def clearListContext (ud : UserData) (list_type : String) : UserData :=
  if list_type = "course_search" then
    { ud with all_course_search_results := none, current_course_search_page := none,
              last_search_query_course := none }
  else if list_type = "prof_search" then
    { ud with all_prof_search_results := none, current_prof_search_page := none,
              last_search_query_prof := none }
  else if list_type = "prof_course_list" then
    { ud with all_prof_course_list_results := none, current_prof_course_list_page := none,
              unique_courses_for_selected_prof_kb := none }
  else if list_type = "year_semester_list" then
    { ud with all_year_semester_list_results := none, current_year_semester_list_page := none }
  else ud

/-- Function `back_to_typing_prof_callback` (`bot/handlers.py` 1273-1300): clears the
professor-flow slots, re-prompts for a professor name by editing the
incoming message (`msgId`), and moves to `TYPING_PROF`. -/
def back_to_typing_prof_callback (ud : UserData) (msgId : Nat) : Nat × UserData :=
  let ud1 := clearListContext (clearListContext ud "prof_search") "prof_course_list"
  let ud2 := { ud1 with selected_prof_id := none, selected_prof_name := none,
                        selected_course := none }
  let ud3 := clearListContext ud2 "year_semester_list"
  let ud4 := { ud3 with selected_year := none, selected_semester := none,
                        last_plot_message_id := none, last_bot_message_obj := none,
                        current_ys_list_mode := none, current_ys_list_identifier := none,
                        search_mode := some "prof".data,
                        original_message_id_for_edit := some msgId }
  (TYPING_PROF, ud4)

/-- Function `back_to_prof_search_list_callback` (`bot/handlers.py` 1303-1358):
rebuilds the professor search-results page from cached context; when the
cached list is missing it escalates to the professor-name prompt.  On
success it deletes the current message and sends a new one (`newMsgId`). -/
def back_to_prof_search_list_callback (ud : UserData) (msgId newMsgId : Nat) :
    Nat × UserData :=
  let ud0 := { ud with original_message_id_for_edit := some msgId }
  match ud0.all_prof_search_results with
  | none => back_to_typing_prof_callback ud0 msgId
  | some _all =>
    let ud1 := { ud0 with selected_prof_id := none, selected_prof_name := none }
    let ud2 := clearListContext ud1 "prof_course_list"
    let ud3 := clearListContext { ud2 with selected_course := none } "year_semester_list"
    let ud4 := { ud3 with last_plot_message_id := none, last_bot_message_obj := none,
                          current_ys_list_mode := none, current_ys_list_identifier := none,
                          original_message_id_for_edit := some newMsgId }
    (SELECTING_PROF_RESULTS, ud4)

/-- Function `back_to_prof_courses_callback` (`bot/handlers.py` 1394-1439): rebuilds
the course list of the selected professor from cached context, escalating to
the professor search results (then, inside that, to the professor-name
prompt) when context is missing, and to a full restart when the callback
payload does not parse. -/
def back_to_prof_courses_callback (ud : UserData) (cbData : Str)
    (msgId newMsgId : Nat) : Nat × UserData :=
  let ud0 := { ud with original_message_id_for_edit := some msgId }
  match (stripPfx BACK_TO_PROF_COURSE_LIST_PREFIX cbData).bind parseNat with
  | none => back_to_main_callback ud0 newMsgId
  | some prof_id =>
    if ud0.selected_prof_id ≠ some prof_id then
      back_to_typing_prof_callback ud0 msgId
    else
      let all_unique_courses := ud0.unique_courses_for_selected_prof_kb
      if all_unique_courses.getD [] = [] then
        back_to_prof_search_list_callback ud0 msgId newMsgId
      else
        let ud1 := clearListContext { ud0 with selected_course := none } "year_semester_list"
        let ud2 := { ud1 with last_plot_message_id := none, last_bot_message_obj := none,
                              current_ys_list_mode := none, current_ys_list_identifier := none }
        (SELECTING_COURSE_FOR_PROF, ud2)

/-!  The shared pagination handler and its per-prefix callbacks
(`bot/handlers.py` 1066-1189). -/

/-- The `list_type_key` values `_handle_pagination_callback` is called with. -/
inductive ListTypeKey where
  | course_search
  | prof_search
  | prof_course_list
  | year_semester_list
deriving Repr, DecidableEq

/-- The `expected_cb_parts_len` argument passed by each pagination callback. -/
def expectedCbPartsLen : ListTypeKey → Nat
  | .course_search => 1
  | .prof_search => 1
  | .prof_course_list => 2
  | .year_semester_list => 3

/-- The conversation state each pagination callback returns on success. -/
def listingState : ListTypeKey → Nat
  | .course_search => SELECTING_COURSE_RESULTS
  | .prof_search => SELECTING_PROF_RESULTS
  | .prof_course_list => SELECTING_COURSE_FOR_PROF
  | .year_semester_list => SELECTING_YEAR_SEMESTER

/-- Successful outcome of a pagination handler: the listing state returned,
the updated context, and the keyboard put on the edited message. -/
structure PageSuccess where
  state : Nat
  ud : UserData
  keyboard : Keyboard
deriving Repr, DecidableEq

/-- Function `_handle_pagination_callback` (`bot/handlers.py` 1066-1137).  `none` is
the exception path (caught by the handler and turned into an error reply
ending the conversation).  The message text rendered next to the keyboard
has no bearing on the verified claims and is not modelled. -/
def handlePaginationCallback (ud : UserData) (list_type_key : ListTypeKey)
    (page_data_parts : List Str) (msgId : Nat) : Option PageSuccess :=
  let ud0 := { ud with original_message_id_for_edit := some msgId }
  if page_data_parts.length ≠ expectedCbPartsLen list_type_key then none
  else
    match parseNat (page_data_parts.getLastD []) with
    | none => none
    | some new_page =>
      match list_type_key with
      | .course_search =>
        match ud0.all_course_search_results with
        | none => none
        | some all =>
          let ud1 := { ud0 with current_course_search_page := some new_page }
          some ⟨ SELECTING_COURSE_RESULTS, ud1,
                 create_search_results_keyboard all "course".data new_page ⟩
      | .prof_search =>
        match ud0.all_prof_search_results with
        | none => none
        | some all =>
          let ud1 := { ud0 with current_prof_search_page := some new_page }
          some ⟨ SELECTING_PROF_RESULTS, ud1,
                 create_search_results_keyboard all "prof".data new_page ⟩
      | .prof_course_list =>
        match ud0.all_prof_course_list_results with
        | none => none
        | some primary =>
          let dataForKb := ud0.unique_courses_for_selected_prof_kb.getD primary
          let prof_id_str := page_data_parts.headD []
          let ud1 := { ud0 with current_prof_course_list_page := some new_page }
          some ⟨ SELECTING_COURSE_FOR_PROF, ud1,
                 create_prof_course_selection_keyboard dataForKb prof_id_str new_page ⟩
      | .year_semester_list =>
        match ud0.all_year_semester_list_results with
        | none => none
        | some all =>
          let mode := page_data_parts.headD []
          let identifier := (page_data_parts.drop 1).headD []
          let ud1 := { ud0 with current_year_semester_list_page := some new_page }
          match create_year_semester_keyboard all identifier mode new_page with
          | none => none
          | some kb => some ⟨ SELECTING_YEAR_SEMESTER, ud1, kb ⟩

/-- Function `page_course_search_results_callback` (`bot/handlers.py` 1141-1150). -/
def page_course_search_results_callback (ud : UserData) (data : Str) (msgId : Nat) :
    Option PageSuccess :=
  match stripPfx PAGE_COURSE_SEARCH_RESULTS_PREFIX data with
  | none => none
  | some page_num_str =>
    handlePaginationCallback ud .course_search [page_num_str] msgId

/-- Function `page_prof_search_results_callback` (`bot/handlers.py` 1153-1162). -/
def page_prof_search_results_callback (ud : UserData) (data : Str) (msgId : Nat) :
    Option PageSuccess :=
  match stripPfx PAGE_PROF_SEARCH_RESULTS_PREFIX data with
  | none => none
  | some page_num_str =>
    handlePaginationCallback ud .prof_search [page_num_str] msgId

/-- Function `page_prof_course_list_callback` (`bot/handlers.py` 1165-1176). -/
def page_prof_course_list_callback (ud : UserData) (data : Str) (msgId : Nat) :
    Option PageSuccess :=
  match stripPfx PAGE_PROF_COURSE_LIST_PREFIX data with
  | none => none
  | some payload =>
    match pyRsplitOnce '_' payload with
    | [prof_id_str, page_num_str] =>
      handlePaginationCallback ud .prof_course_list [prof_id_str, page_num_str] msgId
    | _ => none

/-- Function `page_year_semester_list_callback` (`bot/handlers.py` 1179-1189). -/
def page_year_semester_list_callback (ud : UserData) (data : Str) (msgId : Nat) :
    Option PageSuccess :=
  match stripPfx PAGE_YEAR_SEMESTER_PREFIX data with
  | none => none
  | some payload =>
    match splitChars '_' payload with
    | [mode, identifier, page_num_str] =>
      handlePaginationCallback ud .year_semester_list [mode, identifier, page_num_str] msgId
    | _ => none

/-- Spec-side definition, following the claim wording for page clamping:
the last page index of a cached list of `total` items. -/
def specLastPage (total : Nat) : Nat :=
  (total + ITEMS_PER_PAGE - 1) / ITEMS_PER_PAGE - 1

/-- Spec-side definition: a decoded page index clamped to `[0, last_page]`. -/
def specClampPage (p total : Nat) : Nat := min p (specLastPage total)

/-!  Decoders, one per pagination callback data format: the split performed
by the callback composed with the `int(...)` conversion done in
`_handle_pagination_callback`. -/

/-- Decoder for `PAGE_COURSE_SEARCH_RESULTS_PREFIX` payloads. -/
def decodeCourseSearchPage (data : Str) : Option Nat :=
  (stripPfx PAGE_COURSE_SEARCH_RESULTS_PREFIX data).bind parseNat

/-- Decoder for `PAGE_PROF_SEARCH_RESULTS_PREFIX` payloads. -/
def decodeProfSearchPage (data : Str) : Option Nat :=
  (stripPfx PAGE_PROF_SEARCH_RESULTS_PREFIX data).bind parseNat

/-- Decoder for `PAGE_PROF_COURSE_LIST_PREFIX` payloads: professor id
string and page. -/
def decodeProfCourseListPage (data : Str) : Option (Str × Nat) :=
  match stripPfx PAGE_PROF_COURSE_LIST_PREFIX data with
  | none => none
  | some payload =>
    match pyRsplitOnce '_' payload with
    | [prof_id_str, page_num_str] => (parseNat page_num_str).map (fun n => (prof_id_str, n))
    | _ => none

/-- Decoder for `PAGE_YEAR_SEMESTER_PREFIX` payloads: mode, back identifier
and page. -/
def decodeYearSemPage (data : Str) : Option (Str × Str × Nat) :=
  match stripPfx PAGE_YEAR_SEMESTER_PREFIX data with
  | none => none
  | some payload =>
    match splitChars '_' payload with
    | [mode, identifier, page_num_str] =>
      (parseNat page_num_str).map (fun n => (mode, identifier, n))
    | _ => none

/-!  Helper lemmas about the string primitives. -/

theorem digitChar_toNat {d : Nat} (h : d < 10) : (Nat.digitChar d).toNat = 48 + d := by
  interval_cases d <;> rfl

theorem decDigitsAux_spec (fuel : Nat) : ∀ n : Nat, n < fuel →
    decDigitsAux fuel n ≠ [] ∧
    (∀ c ∈ decDigitsAux fuel n, 48 ≤ c.toNat ∧ c.toNat ≤ 57) ∧
    (decDigitsAux fuel n).foldl (fun a c => a * 10 + (c.toNat - 48)) 0 = n := by
  induction fuel with
  | zero => intro n h; omega
  | succ fuel ih =>
    intro n h
    by_cases h10 : n < 10
    · refine ⟨by simp [decDigitsAux, h10], ?_, ?_⟩
      · intro c hc
        simp [decDigitsAux, h10] at hc
        subst hc
        rw [digitChar_toNat h10]
        omega
      · simp [decDigitsAux, h10, digitChar_toNat h10]
    · have hdiv : n / 10 < fuel := by
        have := Nat.div_lt_self (by omega : 0 < n) (by omega : 1 < 10)
        omega
      obtain ⟨hne, hdig, hval⟩ := ih (n / 10) hdiv
      have hmod : n % 10 < 10 := Nat.mod_lt _ (by omega)
      refine ⟨?_, ?_, ?_⟩
      · simp [decDigitsAux, h10]
      · intro c hc
        simp only [decDigitsAux, h10, if_false, List.mem_append, List.mem_singleton] at hc
        rcases hc with hc | hc
        · exact hdig c hc
        · subst hc; rw [digitChar_toNat hmod]; omega
      · simp only [decDigitsAux, h10, if_false, List.foldl_append, List.foldl_cons,
          List.foldl_nil, hval]
        rw [digitChar_toNat hmod]
        have := Nat.div_add_mod n 10
        omega

/-- Decoding the decimal rendering of a page index returns it unchanged. -/
theorem parseNat_decString (n : Nat) : parseNat (decString n) = some n := by
  obtain ⟨hne, hdig, hval⟩ := decDigitsAux_spec (n + 1) n (by omega)
  unfold parseNat decString
  rw [if_pos]
  · exact congrArg some hval
  · refine ⟨hne, ?_⟩
    rw [List.all_eq_true]
    intro c hc
    simpa using hdig c hc

/-- The decimal rendering of a page index never contains the payload
delimiter. -/
theorem underscore_not_mem_decString (n : Nat) : '_' ∉ decString n := by
  obtain ⟨_, hdig, _⟩ := decDigitsAux_spec (n + 1) n (by omega)
  intro hmem
  have h2 := hdig _ hmem
  have h3 : ('_').toNat = 95 := rfl
  rw [h3] at h2
  omega

theorem stripPfx_append (p r : Str) : stripPfx p (p ++ r) = some r := by
  unfold stripPfx
  rw [if_pos, List.drop_left]
  rw [List.isPrefixOf_iff_prefix]
  exact List.prefix_append p r

/-- Definitional unfolding of `splitChars` on a cons cell. -/
theorem splitChars_cons (sep c : Char) (cs : Str) :
    splitChars sep (c :: cs) =
      match splitChars sep cs with
      | [] => if c = sep then [[], []] else [[c]]
      | g :: gs => if c = sep then [] :: g :: gs else (c :: g) :: gs := rfl

theorem splitChars_ne_nil (sep : Char) (s : Str) : splitChars sep s ≠ [] := by
  cases s with
  | nil => simp [splitChars]
  | cons c cs =>
    rw [splitChars_cons]
    cases h : splitChars sep cs with
    | nil => by_cases hc : c = sep <;> simp [hc]
    | cons g gs => by_cases hc : c = sep <;> simp [hc]

theorem splitChars_append_sep (sep : Char) (ys : Str) : ∀ xs : Str,
    splitChars sep (xs ++ sep :: ys) = splitChars sep xs ++ splitChars sep ys := by
  intro xs
  induction xs with
  | nil =>
    simp only [List.nil_append]
    rw [splitChars_cons]
    cases h : splitChars sep ys with
    | nil => exact absurd h (splitChars_ne_nil sep ys)
    | cons g gs => simp [splitChars]
  | cons c cs ih =>
    simp only [List.cons_append]
    rw [splitChars_cons, ih, splitChars_cons]
    cases h : splitChars sep cs with
    | nil => exact absurd h (splitChars_ne_nil sep cs)
    | cons g gs =>
      cases hy : splitChars sep ys with
      | nil => exact absurd hy (splitChars_ne_nil sep ys)
      | cons g2 gs2 => by_cases hc : c = sep <;> simp [hc]

theorem splitChars_of_not_mem {sep : Char} {xs : Str} (h : sep ∉ xs) :
    splitChars sep xs = [xs] := by
  induction xs with
  | nil => rfl
  | cons c cs ih =>
    have hc : ¬ c = sep := fun hc => h (hc ▸ List.mem_cons_self c cs)
    have hcs : sep ∉ cs := fun hm => h (List.mem_cons_of_mem c hm)
    rw [splitChars_cons, ih hcs]
    simp [hc]

/-- Definitional unfolding of `joinSep` on a cons cell. -/
theorem joinSep_cons (sep : Char) (g : Str) (gs : List Str) :
    joinSep sep (g :: gs) = match gs with
      | [] => g
      | _ :: _ => g ++ sep :: joinSep sep gs := by
  cases gs <;> rfl

theorem joinSep_splitChars (sep : Char) : ∀ s : Str,
    joinSep sep (splitChars sep s) = s := by
  intro s
  induction s with
  | nil => rfl
  | cons c cs ih =>
    rw [splitChars_cons]
    cases h : splitChars sep cs with
    | nil => exact absurd h (splitChars_ne_nil sep cs)
    | cons g gs =>
      rw [h] at ih
      dsimp only
      by_cases hc : c = sep
      · subst hc
        rw [if_pos rfl, joinSep_cons]
        dsimp only
        rw [List.nil_append, ih]
      · rw [if_neg hc]
        cases gs with
        | nil =>
          rw [joinSep_cons] at ih ⊢
          dsimp only at ih ⊢
          rw [ih]
        | cons g2 gs2 =>
          rw [joinSep_cons] at ih ⊢
          dsimp only at ih ⊢
          rw [List.cons_append, ih]

/-- Python `rsplit(sep, 1)` splits off exactly the final separator-free field, for
every left part. -/
theorem pyRsplitOnce_append {sep : Char} {ys : Str} (hy : sep ∉ ys) (xs : Str) :
    pyRsplitOnce sep (xs ++ sep :: ys) = [xs, ys] := by
  unfold pyRsplitOnce
  rw [splitChars_append_sep, splitChars_of_not_mem hy]
  cases h : splitChars sep xs with
  | nil => exact absurd h (splitChars_ne_nil sep xs)
  | cons g gs =>
    have hjoin : joinSep sep (g :: gs) = xs := by
      rw [← h]; exact joinSep_splitChars sep xs
    have hshape : (g :: gs) ++ [ys] = g :: (gs ++ [ys]) := rfl
    rw [hshape]
    have hne : gs ++ [ys] ≠ [] := by simp
    cases hgs : gs ++ [ys] with
    | nil => exact absurd hgs hne
    | cons h2 t2 =>
      dsimp only
      have hdl : (g :: h2 :: t2).dropLast = g :: gs := by
        rw [← hgs, show g :: (gs ++ [ys]) = (g :: gs) ++ [ys] from rfl]
        exact List.dropLast_concat
      have hlast : (h2 :: t2).getLastD g = ys := by
        have h1 : (g :: h2 :: t2).getLastD g = ys := by
          rw [← hgs, show g :: (gs ++ [ys]) = (g :: gs) ++ [ys] from rfl]
          exact List.getLastD_concat g ys (g :: gs)
        rw [List.getLastD_cons] at h1
        exact h1
      rw [hdl, hlast, hjoin]

theorem filterMap_eq_map_of_forall {f : α → Option β} {g : α → β} :
    ∀ {l : List α}, (∀ x ∈ l, f x = some (g x)) → l.filterMap f = l.map g := by
  intro l
  induction l with
  | nil => intro _; rfl
  | cons x xs ih =>
    intro h
    rw [List.filterMap_cons, h x (List.mem_cons_self x xs), List.map_cons,
      ih fun y hy => h y (List.mem_cons_of_mem x hy)]

/-!  Claim C3: pagination controls. -/

/-- C3 counterexample: for a 5-item list at page index 1, the claim demands
a Previous control (`page_index > 0`), but the builder renders no controls
at all because the early return fires whenever the list fits on one page. -/
theorem c3_prev_iff_counterexample :
    ¬ ((((paginationRow 1 5 [] []).any fun b => b.text = "⬅️ Previous".data) = true) ↔
      0 < 1) := by decide

/-- C3 amended: a Previous control is rendered iff `page_index > 0` AND the
list does not fit on a single page (`len(list) > ITEMS_PER_PAGE`); a Next
control is rendered iff `(page_index+1)*ITEMS_PER_PAGE < len(list)`; in
particular an empty list renders no controls. -/
theorem c3_pagination_controls (p total : Nat) (basePfx : Str) (parts : List Str) :
    paginationRow p total basePfx parts =
      (if ITEMS_PER_PAGE < total ∧ 0 < p then
        [Button.mk "⬅️ Previous".data (encodePageCallback basePfx parts (p - 1))]
      else []) ++
      (if (p + 1) * ITEMS_PER_PAGE < total then
        [Button.mk "Next ➡️".data (encodePageCallback basePfx parts (p + 1))]
      else []) := by
  have hq := Nat.div_add_mod (total + ITEMS_PER_PAGE - 1) ITEMS_PER_PAGE
  have hm : (total + ITEMS_PER_PAGE - 1) % ITEMS_PER_PAGE < ITEMS_PER_PAGE :=
    Nat.mod_lt _ (by decide)
  simp only [paginationRow, ITEMS_PER_PAGE] at hq hm ⊢
  split_ifs <;> first | rfl | omega

/-!  Claims C6, C7, C10: gating filters. -/

/-- C6: an elevated (admin) user id passes the gating pre-processor under
every maintenance value (absent, legacy strings, stealth, custom message,
or a failed read) and every block-list outcome (blocked, unblocked, missing
response, or a failed call). -/
theorem c6_admin_bypasses_gating (uid : Nat) (admin_ids : List Nat)
    (redis : RedisRead) (api : BlockApiResult) (h : uid ∈ admin_ids) :
    global_pre_processor (some uid) admin_ids redis api = .allow := by
  simp [global_pre_processor, get_maintenance_status, pre_process_blocked_user, h]

/-- C6 witness. -/
theorem c6_admin_bypasses_gating_witness :
    global_pre_processor (some 7) [3, 7] (.val (some "stealth")) (.status true) = .allow :=
  c6_admin_bypasses_gating 7 [3, 7] (.val (some "stealth")) (.status true) (by decide)

/-- C7: on a Redis connection error the maintenance check reads as live, on
a raised block-list call the block check reads as unblocked, and the gating
pre-processor treats the double failure exactly as (maintenance flag absent,
user unblocked): the event is allowed. -/
theorem c7_gating_fails_open (user_id : Option Nat) (admin_ids : List Nat) :
    (∀ uid : Nat, get_maintenance_status uid admin_ids .connError =
      get_maintenance_status uid admin_ids (.val none)) ∧
    pre_process_blocked_user user_id admin_ids .fail =
      pre_process_blocked_user user_id admin_ids (.status false) ∧
    global_pre_processor user_id admin_ids .connError .fail =
      global_pre_processor user_id admin_ids (.val none) (.status false) ∧
    global_pre_processor user_id admin_ids .connError .fail = .allow := by
  refine ⟨?_, ?_, ?_, ?_⟩
  · intro uid
    by_cases h : uid ∈ admin_ids <;>
      simp [get_maintenance_status, h]
  · cases user_id with
    | none => rfl
    | some uid =>
      by_cases h : uid ∈ admin_ids <;>
        simp [pre_process_blocked_user, h]
  · cases user_id with
    | none => rfl
    | some uid =>
      by_cases h : uid ∈ admin_ids <;>
        simp [global_pre_processor, get_maintenance_status, pre_process_blocked_user, h]
  · cases user_id with
    | none => rfl
    | some uid =>
      by_cases h : uid ∈ admin_ids <;>
        simp [global_pre_processor, get_maintenance_status, pre_process_blocked_user, h]

/-- C10: for a non-elevated user the maintenance status is live (`none`)
when the stored flag is absent or the legacy string `false`, stealth when it
is the legacy string `true`, and otherwise the stored string verbatim; for
an elevated user it is always live. -/
theorem c10_maintenance_mapping (uid : Nat) (admin_ids : List Nat) (redis : RedisRead) :
    (uid ∉ admin_ids →
      get_maintenance_status uid admin_ids (.val none) = none ∧
      get_maintenance_status uid admin_ids (.val (some "false")) = none ∧
      get_maintenance_status uid admin_ids (.val (some "true")) = some "stealth" ∧
      (∀ m : String, m ≠ "false" → m ≠ "true" →
        get_maintenance_status uid admin_ids (.val (some m)) = some m)) ∧
    (uid ∈ admin_ids → get_maintenance_status uid admin_ids redis = none) := by
  constructor
  · intro h
    refine ⟨?_, ?_, ?_, ?_⟩
    · simp [get_maintenance_status, h]
    · simp [get_maintenance_status, h]
    · simp [get_maintenance_status, h]
    · intro m hm1 hm2
      simp [get_maintenance_status, h, hm1, hm2]
  · intro h
    simp [get_maintenance_status, h]

/-- C10 witness. -/
theorem c10_maintenance_mapping_witness :
    get_maintenance_status 5 [9] (.val (some "Back at noon")) = some "Back at noon" ∧
    get_maintenance_status 9 [9] (.val (some "true")) = none := by
  constructor
  · exact ((c10_maintenance_mapping 5 [9] (.val (some "Back at noon"))).1
      (by decide)).2.2.2 "Back at noon" (by decide) (by decide)
  · exact (c10_maintenance_mapping 9 [9] (.val (some "true"))).2 (by decide)

/-!  Claim C2: the start triggers. -/

/-- C2 counterexample: `/start` does not clear the per-user context.  From a
context holding a `search_mode` slot, `start_command` leaves that slot in
place, so the resulting context is not the context holding only the fresh
prompt-message handle. -/
theorem c2_start_counterexample :
    (start_command { search_mode := some "course".data } 7).2.search_mode
      = some "course".data ∧
    (start_command { search_mode := some "course".data } 7).2 ≠
      ({ original_message_id_for_edit := some 7 } : UserData) := by
  constructor
  · rfl
  · intro h
    have := congrArg UserData.search_mode h
    simp [start_command] at this

/-- C2 amended: the restart button (`back_to_main_callback`) performs the
idempotent hard reset exactly as claimed: it lands in `SELECTING_ACTION`
with a context holding only the fresh prompt-message handle, and running it
twice equals running it once.  The `/start` command is also idempotent and
also lands in `SELECTING_ACTION`, but it resets only the prompt-message
handle slot and leaves every other slot of the context unchanged. -/
theorem c2_start_triggers (ud : UserData) (m : Nat) :
    back_to_main_callback ud m =
      (SELECTING_ACTION, { UserData.cleared with original_message_id_for_edit := some m }) ∧
    back_to_main_callback (back_to_main_callback ud m).2 m = back_to_main_callback ud m ∧
    start_command ud m =
      (SELECTING_ACTION, { ud with original_message_id_for_edit := some m }) ∧
    start_command (start_command ud m).2 m = start_command ud m := by
  refine ⟨rfl, rfl, rfl, rfl⟩

/-!  Claim C4: callback payload round-trips. -/

/-- C4 counterexample: the year/semester producers emit the selected course
code as the back identifier, and course codes are free-form strings (they
are ingested verbatim into a `VARCHAR(20)` column); for a course code
containing the payload delimiter, the year/semester decoder rejects the
encoded payload (it splits into four fields instead of three), so
encode-then-decode does not return the original identifiers and page. -/
theorem c4_roundtrip_counterexample :
    decodeYearSemPage (encodePageCallback PAGE_YEAR_SEMESTER_PREFIX
      ["course".data, "CS_101".data] 2) = none ∧
    decodeYearSemPage (encodePageCallback PAGE_YEAR_SEMESTER_PREFIX
      ["course".data, "CS_101".data] 2) ≠
      some ("course".data, "CS_101".data, 2) := by decide

/-- C4 amended: encode-then-decode returns the original identifiers and
page unchanged for every defined prefix, with the proviso that for the
year/semester prefix the mode and the back identifier must not contain the
`_` delimiter (the professor-course-list decoder uses `rsplit` and is
robust for every identifier; the two search prefixes carry no
identifiers). -/
theorem c4_encode_decode_roundtrip :
    (∀ page : Nat, decodeCourseSearchPage
        (encodePageCallback PAGE_COURSE_SEARCH_RESULTS_PREFIX [] page) = some page) ∧
    (∀ page : Nat, decodeProfSearchPage
        (encodePageCallback PAGE_PROF_SEARCH_RESULTS_PREFIX [] page) = some page) ∧
    (∀ (prof_id_str : Str) (page : Nat), decodeProfCourseListPage
        (encodePageCallback PAGE_PROF_COURSE_LIST_PREFIX [prof_id_str] page) =
        some (prof_id_str, page)) ∧
    (∀ (mode back_id : Str) (page : Nat), '_' ∉ mode → '_' ∉ back_id →
      decodeYearSemPage
        (encodePageCallback PAGE_YEAR_SEMESTER_PREFIX [mode, back_id] page) =
        some (mode, back_id, page)) := by
  refine ⟨?_, ?_, ?_, ?_⟩
  · intro page
    have h1 : encodePageCallback PAGE_COURSE_SEARCH_RESULTS_PREFIX [] page =
        PAGE_COURSE_SEARCH_RESULTS_PREFIX ++ decString page := by
      simp [encodePageCallback, payloadStr]
    rw [decodeCourseSearchPage, h1, stripPfx_append]
    simp [parseNat_decString]
  · intro page
    have h1 : encodePageCallback PAGE_PROF_SEARCH_RESULTS_PREFIX [] page =
        PAGE_PROF_SEARCH_RESULTS_PREFIX ++ decString page := by
      simp [encodePageCallback, payloadStr]
    rw [decodeProfSearchPage, h1, stripPfx_append]
    simp [parseNat_decString]
  · intro prof_id_str page
    have h1 : encodePageCallback PAGE_PROF_COURSE_LIST_PREFIX [prof_id_str] page =
        PAGE_PROF_COURSE_LIST_PREFIX ++ (prof_id_str ++ '_' :: decString page) := by
      simp [encodePageCallback, payloadStr, joinSep]
    rw [decodeProfCourseListPage, h1, stripPfx_append]
    dsimp only
    rw [pyRsplitOnce_append (underscore_not_mem_decString page)]
    simp [parseNat_decString]
  · intro mode back_id page hmode hback
    have h1 : encodePageCallback PAGE_YEAR_SEMESTER_PREFIX [mode, back_id] page =
        PAGE_YEAR_SEMESTER_PREFIX ++ (mode ++ '_' :: (back_id ++ '_' :: decString page)) := by
      simp [encodePageCallback, payloadStr, joinSep]
    rw [decodeYearSemPage, h1, stripPfx_append]
    dsimp only
    rw [splitChars_append_sep, splitChars_of_not_mem hmode, splitChars_append_sep,
      splitChars_of_not_mem hback,
      splitChars_of_not_mem (underscore_not_mem_decString page)]
    simp [parseNat_decString]

/-- C4 witness. -/
theorem c4_encode_decode_roundtrip_witness :
    decodeYearSemPage
      (encodePageCallback PAGE_YEAR_SEMESTER_PREFIX ["prof".data, "42".data] 3) =
      some ("prof".data, "42".data, 3) :=
  c4_encode_decode_roundtrip.2.2.2 "prof".data "42".data 3 (by decide) (by decide)

/-!  Claim C1: page-index handling in the pagination handler. -/

/-- Nine sample cached course results: two pages at page size 8. -/
def sampleCourses : List Item :=
  (List.range 9).map (fun i => { code := some ('C' :: decString i) })

/-- A sample context caching those results. -/
def sampleUd : UserData := { all_course_search_results := some sampleCourses }

/-- C1 counterexample: with 9 cached results (`last_page = 1`) a stale
button carrying page index 5 is processed as page 5, not clamped: the
stored page cursor becomes 5 and the rendered keyboard is not the keyboard
of the clamped page. -/
theorem c1_clamp_counterexample :
    (page_course_search_results_callback sampleUd "p_csr_5".data 17).map
        (fun r => r.ud.current_course_search_page) = some (some 5) ∧
    specClampPage 5 sampleCourses.length = 1 ∧
    (page_course_search_results_callback sampleUd "p_csr_5".data 17).map
        (fun r => r.keyboard) ≠
      some (create_search_results_keyboard sampleCourses "course".data
        (specClampPage 5 sampleCourses.length)) := by decide

/-- What each pagination branch needs from the cached context in order to
succeed: the primary cached list, and for the year/semester list also that
its sort keys compute (the cached term rows have parseable years). -/
def paginationContextReady (ud : UserData) : ListTypeKey → Prop
  | .course_search => ud.all_course_search_results.isSome = true
  | .prof_search => ud.all_prof_search_results.isSome = true
  | .prof_course_list => ud.all_prof_course_list_results.isSome = true
  | .year_semester_list =>
    ∃ l, ud.all_year_semester_list_results = some l ∧ (sortedTermsOpt l).isSome = true

/-- C1 amended: the decoded page index is NOT clamped (see the
counterexample); instead, for every list type, every decoded page index
(in range or not) and every context caching the required list (with
computable sort keys in the year/semester case), the handler succeeds:
it returns the listing state with a well-formed keyboard instead of
raising. -/
theorem c1_out_of_range_never_crashes (ud : UserData) (ltk : ListTypeKey)
    (parts : List Str) (msgId : Nat)
    (hlen : parts.length = expectedCbPartsLen ltk)
    (hpage : (parseNat (parts.getLastD [])).isSome = true)
    (hready : paginationContextReady ud ltk) :
    ∃ r, handlePaginationCallback ud ltk parts msgId = some r ∧
      r.state = listingState ltk := by
  obtain ⟨pg, hpg⟩ := Option.isSome_iff_exists.mp hpage
  rw [List.getLastD_eq_getLast?] at hpg
  cases ltk with
  | course_search =>
    obtain ⟨all, hall⟩ := Option.isSome_iff_exists.mp hready
    simp [handlePaginationCallback, hlen, hpg, hall, listingState]
  | prof_search =>
    obtain ⟨all, hall⟩ := Option.isSome_iff_exists.mp hready
    simp [handlePaginationCallback, hlen, hpg, hall, listingState]
  | prof_course_list =>
    obtain ⟨all, hall⟩ := Option.isSome_iff_exists.mp hready
    simp [handlePaginationCallback, hlen, hpg, hall, listingState]
  | year_semester_list =>
    obtain ⟨l, hl, hsort⟩ := hready
    obtain ⟨sorted, hsorted⟩ := Option.isSome_iff_exists.mp hsort
    simp [handlePaginationCallback, hlen, hpg, hl, listingState,
      create_year_semester_keyboard, hsorted]

/-- C1 witness (an out-of-range page index on the sample context). -/
theorem c1_out_of_range_never_crashes_witness :
    ∃ r, handlePaginationCallback sampleUd .course_search ["9".data] 4 = some r ∧
      r.state = listingState .course_search :=
  c1_out_of_range_never_crashes sampleUd .course_search ["9".data] 4
    (by decide) (by decide) rfl

/-!  Claim C5: deterministic page rendering. -/

/-- C5: for a cached result list whose items on the requested page carry a
truthy identifier (which is what the search endpoints return), page `p`
renders exactly the items at positions `[p*ITEMS_PER_PAGE,
(p+1)*ITEMS_PER_PAGE)` of the frozen list, one button per item in list
order, followed by the pagination controls and the fixed footer; the
rendering is a pure function of `(list, type, page)`, so repeated rendering
of the same page is identical by definition. -/
theorem c5_page_is_frozen_slice (all_results : List Item) (p : Nat) :
    ((∀ it ∈ pySlice all_results (p * ITEMS_PER_PAGE) (p * ITEMS_PER_PAGE + ITEMS_PER_PAGE),
        truthyStr it.code = true) →
      create_search_results_keyboard all_results "course".data p =
        addPaginationButtons
          ((pySlice all_results (p * ITEMS_PER_PAGE) (p * ITEMS_PER_PAGE + ITEMS_PER_PAGE)).map
            (fun it => [courseItemButton it]))
          p all_results.length PAGE_COURSE_SEARCH_RESULTS_PREFIX [] ++
        [[Button.mk "⬅️ Re-enter Search".data BACK_TO_TYPING_COURSE,
          Button.mk "❌ Cancel".data CANCEL]]) ∧
    ((∀ it ∈ pySlice all_results (p * ITEMS_PER_PAGE) (p * ITEMS_PER_PAGE + ITEMS_PER_PAGE),
        it.id.getD 0 ≠ 0) →
      create_search_results_keyboard all_results "prof".data p =
        addPaginationButtons
          ((pySlice all_results (p * ITEMS_PER_PAGE) (p * ITEMS_PER_PAGE + ITEMS_PER_PAGE)).map
            (fun it => [profItemButton it]))
          p all_results.length PAGE_PROF_SEARCH_RESULTS_PREFIX [] ++
        [[Button.mk "⬅️ Re-enter Search".data BACK_TO_TYPING_PROF,
          Button.mk "❌ Cancel".data CANCEL]]) := by
  constructor
  · intro h
    unfold create_search_results_keyboard
    dsimp only
    rw [if_pos rfl, if_pos rfl,
      filterMap_eq_map_of_forall (g := fun it => [courseItemButton it])]
    intro it hit
    unfold searchResultRow
    rw [if_pos rfl, if_pos (h it hit)]
  · intro h
    have hne : ¬ ("prof".data = "course".data) := by decide
    unfold create_search_results_keyboard
    dsimp only
    rw [if_neg hne, if_neg hne,
      filterMap_eq_map_of_forall (g := fun it => [profItemButton it])]
    intro it hit
    unfold searchResultRow
    rw [if_neg hne, if_pos (h it hit)]

/-- C5 witness (two renderable items on page 0 of a course list and of a
professor list). -/
theorem c5_page_is_frozen_slice_witness :
    create_search_results_keyboard
        [{ code := some "CS101".data }, { code := some "MA102".data }] "course".data 0 =
      addPaginationButtons
        ((pySlice [{ code := some "CS101".data }, { code := some "MA102".data }]
            (0 * ITEMS_PER_PAGE) (0 * ITEMS_PER_PAGE + ITEMS_PER_PAGE)).map
          (fun it => [courseItemButton it]))
        0 ([{ code := some "CS101".data }, { code := some "MA102".data }] : List Item).length
        PAGE_COURSE_SEARCH_RESULTS_PREFIX [] ++
      [[Button.mk "⬅️ Re-enter Search".data BACK_TO_TYPING_COURSE,
        Button.mk "❌ Cancel".data CANCEL]] :=
  (c5_page_is_frozen_slice
    [{ code := some "CS101".data }, { code := some "MA102".data }] 0).1 (by decide)

/-!  Claim C8: the back-trigger fallback chain. -/

/-- C8: the fallback chain behind the back-to-professor-courses trigger is
a fixed, deterministic, bounded escalation and never loops: with cached
course-list context it rebuilds that menu; with that context missing (or
empty) it runs exactly the professor-search-results reconstruction, which
in turn, when the cached search results are missing, ends at the
professor-name prompt, which always succeeds; an unparseable payload
restarts the conversation (`SELECTING_ACTION` with a fresh prompt).  The
equation below determines the final state of the whole chain as a total
function of the context, so the chain terminates after at most two
escalation steps for every context. -/
theorem c8_backtrack_chain_total (ud : UserData) (cb : Str) (msgId newMsgId : Nat) :
    (back_to_prof_courses_callback ud cb msgId newMsgId).1 =
      (match (stripPfx BACK_TO_PROF_COURSE_LIST_PREFIX cb).bind parseNat with
       | none => SELECTING_ACTION
       | some prof_id =>
         if ud.selected_prof_id ≠ some prof_id then TYPING_PROF
         else if ud.unique_courses_for_selected_prof_kb.getD [] = [] then
           (if ud.all_prof_search_results.isSome then SELECTING_PROF_RESULTS
            else TYPING_PROF)
         else SELECTING_COURSE_FOR_PROF) ∧
    (∀ prof_id, (stripPfx BACK_TO_PROF_COURSE_LIST_PREFIX cb).bind parseNat = some prof_id →
      ud.selected_prof_id = some prof_id →
      ud.unique_courses_for_selected_prof_kb.getD [] = [] →
      back_to_prof_courses_callback ud cb msgId newMsgId =
        back_to_prof_search_list_callback
          { ud with original_message_id_for_edit := some msgId } msgId newMsgId) := by
  constructor
  · unfold back_to_prof_courses_callback
    cases hdec : (stripPfx BACK_TO_PROF_COURSE_LIST_PREFIX cb).bind parseNat with
    | none => rfl
    | some prof_id =>
      dsimp only
      by_cases hmatch : ud.selected_prof_id ≠ some prof_id
      · rw [if_pos hmatch, if_pos hmatch]
        rfl
      · rw [if_neg hmatch, if_neg hmatch]
        by_cases hkb : ud.unique_courses_for_selected_prof_kb.getD [] = []
        · rw [if_pos hkb, if_pos hkb]
          unfold back_to_prof_search_list_callback
          cases hres : ud.all_prof_search_results with
          | none => simp [hres, back_to_typing_prof_callback]
          | some all => simp [hres]
        · rw [if_neg hkb, if_neg hkb]
  · intro prof_id hdec hmatch hkb
    unfold back_to_prof_courses_callback
    rw [hdec]
    dsimp only
    rw [if_neg (by simp [hmatch]), if_pos hkb]

/-- C8 witness (context with the course list missing and the professor
search results cached: the chain stops at the search-results
reconstruction). -/
theorem c8_backtrack_chain_total_witness :
    (back_to_prof_courses_callback
        { selected_prof_id := some 4, all_prof_search_results := some [] }
        ("back_prof_crs_list_4".data) 10 11).1 = SELECTING_PROF_RESULTS ∧
    back_to_prof_courses_callback
        { selected_prof_id := some 4, all_prof_search_results := some [] }
        ("back_prof_crs_list_4".data) 10 11 =
      back_to_prof_search_list_callback
        { selected_prof_id := some 4, all_prof_search_results := some [],
          original_message_id_for_edit := some 10 } 10 11 := by
  constructor
  · rw [(c8_backtrack_chain_total
      { selected_prof_id := some 4, all_prof_search_results := some [] }
      ("back_prof_crs_list_4".data) 10 11).1]
    decide
  · exact (c8_backtrack_chain_total
      { selected_prof_id := some 4, all_prof_search_results := some [] }
      ("back_prof_crs_list_4".data) 10 11).2 4 (by decide) (by decide) (by decide)

/-!  Claim C9: year/semester ordering. -/

theorem keyLe_total (a b : Int × Nat) : keyLe a b = true ∨ keyLe b a = true := by
  simp only [keyLe, Bool.or_eq_true, Bool.and_eq_true, decide_eq_true_eq]
  omega

theorem keyLe_trans {a b c : Int × Nat} (hab : keyLe a b = true) (hbc : keyLe b c = true) :
    keyLe a c = true := by
  simp only [keyLe, Bool.or_eq_true, Bool.and_eq_true, decide_eq_true_eq] at *
  omega

theorem keyLt_of_keyLe_ne {a b : Int × Nat} (hle : keyLe a b = true) (hne : a ≠ b) :
    keyLt a b = true := by
  have hne2 : ¬ (a.1 = b.1 ∧ a.2 = b.2) := fun hh => hne (Prod.ext hh.1 hh.2)
  simp only [keyLe, keyLt, Bool.or_eq_true, Bool.and_eq_true, decide_eq_true_eq] at *
  omega

instance : IsTotal Item termLe :=
  ⟨fun a b => by unfold termLe; exact keyLe_total _ _⟩

instance : IsTrans Item termLe :=
  ⟨fun a b c hab hbc => by unfold termLe at *; exact keyLe_trans hab hbc⟩

/-- Invariant preservation for one `unique_terms` iteration: the keys stay
pairwise distinct and every stored pair keeps a value drawn from the input
whose fields match its key. -/
theorem uniqueTermsStep_inv {terms0 : List Item} {acc : List ((Str × Str) × Item)}
    {t : Item} (ht : t ∈ terms0)
    (h1 : acc.Pairwise (fun p q => p.1 ≠ q.1))
    (h2 : ∀ p ∈ acc, p.2 ∈ terms0 ∧ p.2.academic_year = some p.1.1 ∧
      p.2.semester = some p.1.2) :
    (uniqueTermsStep acc t).Pairwise (fun p q => p.1 ≠ q.1) ∧
    (∀ p ∈ uniqueTermsStep acc t, p.2 ∈ terms0 ∧ p.2.academic_year = some p.1.1 ∧
      p.2.semester = some p.1.2) := by
  unfold uniqueTermsStep
  cases hy : t.academic_year with
  | none => exact ⟨h1, h2⟩
  | some y =>
    cases hs : t.semester with
    | none => exact ⟨h1, h2⟩
    | some s =>
      dsimp only
      by_cases htr : y ≠ [] ∧ s ≠ []
      · rw [if_pos htr]
        unfold upsertTerm
        by_cases hany : (acc.any fun p => p.1 = (y, s)) = true
        · rw [if_pos hany]
          constructor
          · rw [List.pairwise_map]
            have hkey : ∀ r : (Str × Str) × Item,
                (if r.1 = (y, s) then (r.1, t) else r).1 = r.1 := by
              intro r; split <;> rfl
            refine h1.imp_of_mem ?_
            intro p q _ _ hpq
            rw [hkey, hkey]
            exact hpq
          · intro p hp
            rw [List.mem_map] at hp
            obtain ⟨r, hr, hrp⟩ := hp
            by_cases hcase : r.1 = (y, s)
            · rw [← hrp, if_pos hcase]
              exact ⟨ht, by simp [hcase, hy], by simp [hcase, hs]⟩
            · rw [← hrp, if_neg hcase]
              exact h2 r hr
        · rw [if_neg hany]
          rw [List.any_eq_true] at hany
          push_neg at hany
          constructor
          · rw [List.pairwise_append]
            refine ⟨h1, List.pairwise_singleton _ _, ?_⟩
            intro p hp q hq
            simp only [List.mem_singleton] at hq
            subst hq
            intro hkey
            exact (hany p hp) (by simpa using hkey)
          · intro p hp
            rw [List.mem_append] at hp
            rcases hp with hp | hp
            · exact h2 p hp
            · simp only [List.mem_singleton] at hp
              subst hp
              exact ⟨ht, hy, hs⟩
      · rw [if_neg htr]
        exact ⟨h1, h2⟩

/-- The `unique_terms` association list has pairwise-distinct keys and its
values come from the input with fields matching their key. -/
theorem uniqueTermsAux_inv (terms : List Item) :
    (uniqueTermsAux terms).Pairwise (fun p q => p.1 ≠ q.1) ∧
    (∀ p ∈ uniqueTermsAux terms, p.2 ∈ terms ∧ p.2.academic_year = some p.1.1 ∧
      p.2.semester = some p.1.2) := by
  have main : ∀ (rest : List Item) (acc : List ((Str × Str) × Item)),
      (∀ x ∈ rest, x ∈ terms) →
      acc.Pairwise (fun p q => p.1 ≠ q.1) →
      (∀ p ∈ acc, p.2 ∈ terms ∧ p.2.academic_year = some p.1.1 ∧
        p.2.semester = some p.1.2) →
      (rest.foldl uniqueTermsStep acc).Pairwise (fun p q => p.1 ≠ q.1) ∧
      (∀ p ∈ rest.foldl uniqueTermsStep acc, p.2 ∈ terms ∧
        p.2.academic_year = some p.1.1 ∧ p.2.semester = some p.1.2) := by
    intro rest
    induction rest with
    | nil => intro acc _ h1 h2; exact ⟨h1, h2⟩
    | cons t ts ih =>
      intro acc hsub h1 h2
      rw [List.foldl_cons]
      obtain ⟨h1', h2'⟩ := uniqueTermsStep_inv (hsub t (List.mem_cons_self t ts)) h1 h2
      exact ih _ (fun x hx => hsub x (List.mem_cons_of_mem t hx)) h1' h2'
  exact main terms [] (fun x hx => hx) List.Pairwise.nil (by intro p hp; cases hp)

/-- The semester rank is injective on the three enumeration values. -/
theorem semRank_inj {s1 s2 : Str}
    (h1 : s1 = "Odd".data ∨ s1 = "Even".data ∨ s1 = "Summer".data)
    (h2 : s2 = "Odd".data ∨ s2 = "Even".data ∨ s2 = "Summer".data)
    (h : semRank s1 = semRank s2) : s1 = s2 := by
  rcases h1 with h1 | h1 | h1 <;> rcases h2 with h2 | h2 | h2 <;>
    subst h1 <;> subst h2 <;> first | rfl | (exfalso; revert h; decide)

/-- C9: whenever the year/semester term list renders (its sort keys
compute), the semesters drawn from the offering rows are among the fixed
enumeration `Odd, Even, Summer`, and equal leading years come from equal
academic-year strings, the rendered order is strictly sorted: newest
academic year first, ties inside a year broken only by the semester
enumeration order — in particular never by arrival order, since the strict
key order leaves no pair of terms whose relative order could depend on
input position. -/
theorem c9_year_semester_ordering (terms l : List Item)
    (hsort : sortedTermsOpt terms = some l)
    (hsem : ∀ t ∈ terms, ∀ s : Str, t.semester = some s →
      s = "Odd".data ∨ s = "Even".data ∨ s = "Summer".data)
    (hyear : ∀ t ∈ terms, ∀ u ∈ terms, ∀ y z : Str, t.academic_year = some y →
      u.academic_year = some z → yearStart y = yearStart z → y = z) :
    l.Pairwise (fun a b => keyLt (termKeyD a) (termKeyD b) = true) := by
  unfold sortedTermsOpt at hsort
  by_cases hall : ((uniqueTerms terms).all fun t => (termKey? t).isSome) = true
  swap
  · rw [if_neg hall] at hsort; cases hsort
  rw [if_pos hall, Option.some_inj] at hsort
  subst hsort
  have hsorted : (List.insertionSort termLe (uniqueTerms terms)).Pairwise termLe :=
    List.sorted_insertionSort termLe (uniqueTerms terms)
  obtain ⟨hkeys, hvals⟩ := uniqueTermsAux_inv terms
  rw [List.all_eq_true] at hall
  have hneq : (uniqueTerms terms).Pairwise (fun a b => termKeyD a ≠ termKeyD b) := by
    unfold uniqueTerms
    rw [List.pairwise_map]
    refine hkeys.imp_of_mem ?_
    intro p q hp hq hpq heq
    obtain ⟨hpmem, hpy, hps⟩ := hvals p hp
    obtain ⟨hqmem, hqy, hqs⟩ := hvals q hq
    have hpk : (termKey? p.2).isSome = true := hall p.2 (by
      unfold uniqueTerms; exact List.mem_map_of_mem _ hp)
    have hqk : (termKey? q.2).isSome = true := hall q.2 (by
      unfold uniqueTerms; exact List.mem_map_of_mem _ hq)
    unfold termKey? at hpk hqk
    rw [hpy, hps] at hpk
    rw [hqy, hqs] at hqk
    dsimp only at hpk hqk
    cases hpv : yearStart p.1.1 with
    | none => rw [hpv] at hpk; simp at hpk
    | some vp =>
      cases hqv : yearStart q.1.1 with
      | none => rw [hqv] at hqk; simp at hqk
      | some vq =>
        have hkp : termKeyD p.2 = (-(vp : Int), semRank p.1.2) := by
          unfold termKeyD termKey?
          rw [hpy, hps]
          dsimp only
          rw [hpv]
          rfl
        have hkq : termKeyD q.2 = (-(vq : Int), semRank q.1.2) := by
          unfold termKeyD termKey?
          rw [hqy, hqs]
          dsimp only
          rw [hqv]
          rfl
        rw [hkp, hkq, Prod.ext_iff] at heq
        obtain ⟨heq1, heq2⟩ := heq
        have hv : vp = vq := by omega
        have hy : p.1.1 = q.1.1 := by
          refine hyear p.2 hpmem q.2 hqmem p.1.1 q.1.1 hpy hqy ?_
          rw [hpv, hqv, hv]
        have hsval : p.1.2 = q.1.2 := by
          refine semRank_inj (hsem p.2 hpmem p.1.2 hps) (hsem q.2 hqmem q.1.2 hqs) ?_
          simpa using heq2
        exact hpq (Prod.ext hy hsval)
  have hneqSorted : (List.insertionSort termLe (uniqueTerms terms)).Pairwise
      (fun a b => termKeyD a ≠ termKeyD b) := by
    refine ((List.perm_insertionSort termLe (uniqueTerms terms)).pairwise_iff ?_).mpr hneq
    intro a b hab
    exact fun h => hab h.symm
  refine (hsorted.and hneqSorted).imp ?_
  intro a b hab
  exact keyLt_of_keyLe_ne hab.1 hab.2

/-- Three sample offering rows, arriving oldest-first and scrambled. -/
def sampleTerms : List Item :=
  [{ academic_year := some "2022-2023".data, semester := some "Even".data },
   { academic_year := some "2023-2024".data, semester := some "Summer".data },
   { academic_year := some "2023-2024".data, semester := some "Odd".data }]

/-- C9 witness: on the sample rows the rendered list is strictly ordered
newest year first, semesters in enumeration order. -/
theorem c9_year_semester_ordering_witness :
    ∃ l, sortedTermsOpt sampleTerms = some l ∧
      l.Pairwise (fun a b => keyLt (termKeyD a) (termKeyD b) = true) := by
  have h : sortedTermsOpt sampleTerms =
      some (List.insertionSort termLe (uniqueTerms sampleTerms)) := by
    unfold sortedTermsOpt
    rw [if_pos (by decide)]
  refine ⟨_, h, c9_year_semester_ordering sampleTerms _ h (by decide) ?_⟩
  intro t ht u hu y z hty huz hyz
  fin_cases ht <;> fin_cases hu <;> dsimp only at hty huz <;>
    rw [Option.some_inj] at hty huz <;> subst hty <;> subst huz <;>
    revert hyz <;> decide

end GradeBot
